import Mathlib

/-!
Verification development for the stage-5 structural consistency validator
(`Stage5Validator` in the repository's prompt/stage_5_app.md).  The Python
validator is shallowly embedded: its regular-expression scans are modelled by
a small backtracking matcher over `List Char` whose patterns are transcribed
node by node from the source regexes, the filesystem is an association list
from path strings to file data, and every validation rule is a state
transformer translated line by line from the source.
-/

set_option maxRecDepth 20000

namespace Stage5

/-! ### Characters and character classes

The classes mirror the Python `re` classes used by the validator:
`\s`, `\w`, `.` (which does not match a newline), `['\"]` and the
negated classes `[^}]` and `[^'\"]`. -/

/-- The single-quote character (written via its code point). -/
def sqChar : Char := Char.ofNat 39

/-- The double-quote character. -/
def dqChar : Char := Char.ofNat 34

/-- The opening-brace character. -/
def obChar : Char := Char.ofNat 123

/-- The closing-brace character. -/
def cbChar : Char := Char.ofNat 125

/-- Python `\s` (whitespace). -/
def wsChar (c : Char) : Bool :=
  c = ' ' || c = '\t' || c = '\n' || c = '\r' || c = '\x0b' || c = '\x0c'

/-- Python `\w` (word character, ASCII view). -/
def wordChar (c : Char) : Bool := c.isAlphanum || c = '_'

/-- Python `.` without DOTALL: any character except a newline. -/
def dotChar (c : Char) : Bool := c != '\n'

/-- The class `['\"]`: either quote character. -/
def quoteChar (c : Char) : Bool := c = sqChar || c = dqChar

/-- The negated class `[^}]` (it does match newlines). -/
def notCloseBrace (c : Char) : Bool := c != cbChar

/-- The negated class `[^'\"]`. -/
def notQuote (c : Char) : Bool := !(c = sqChar || c = dqChar)

/-! ### A small regular-expression engine

Only the constructs appearing in the validator's patterns are supported:
literals, single-character classes, sequencing, ordered alternation,
greedy star/plus over a character class, greedy option, and capture
groups.  Matching is continuation-passing backtracking with Python's
preference order (leftmost start, greedy quantifiers, left alternative
first).  All recursion is structural so that concrete runs reduce inside
the kernel. -/

inductive RE where
  | lit : List Char → RE
  | cls : (Char → Bool) → RE
  | seq : RE → RE → RE
  | alt : RE → RE → RE
  | starC : (Char → Bool) → RE
  | opt : RE → RE
  | grp : RE → RE

/-- Captured groups, in order of completion. -/
abbrev Caps := List (List Char)

/-- Try the continuation after dropping `i, i-1, ..., 0` characters:
greedy preference order for a star over a character class. -/
def tryDrops (cs : List Char) (gs : Caps)
    (k : List Char → Caps → Option (Caps × List Char)) : Nat → Option (Caps × List Char)
  | 0 => k cs gs
  | i + 1 =>
    match k (cs.drop (i + 1)) gs with
    | some r => some r
    | none => tryDrops cs gs k i

/-- Backtracking matcher.  `k` receives the remaining input and the captures
accumulated so far. -/
def reMatch : RE → List Char → Caps → (List Char → Caps → Option (Caps × List Char)) →
    Option (Caps × List Char)
  | .lit s, cs, gs, k => if s.isPrefixOf cs then k (cs.drop s.length) gs else none
  | .cls p, cs, gs, k =>
    match cs with
    | [] => none
    | c :: rest => if p c then k rest gs else none
  | .seq a b, cs, gs, k => reMatch a cs gs (fun cs2 gs2 => reMatch b cs2 gs2 k)
  | .alt a b, cs, gs, k =>
    match reMatch a cs gs k with
    | some r => some r
    | none => reMatch b cs gs k
  | .starC p, cs, gs, k => tryDrops cs gs k (cs.takeWhile p).length
  | .opt a, cs, gs, k =>
    match reMatch a cs gs k with
    | some r => some r
    | none => k cs gs
  | .grp a, cs, gs, k =>
    reMatch a cs gs (fun cs2 gs2 => k cs2 (gs2 ++ [cs.take (cs.length - cs2.length)]))

/-- Match anchored at the start of `cs`; returns captures and the rest. -/
def matchAt (re : RE) (cs : List Char) : Option (Caps × List Char) :=
  reMatch re cs [] (fun rest gs => some (gs, rest))

/-- Python `re.search` viewed as a Boolean: is there a match at some
position, scanning start positions left to right? -/
def reSearch (re : RE) : List Char → Bool
  | [] => (matchAt re []).isSome
  | c :: rest => if (matchAt re (c :: rest)).isSome then true else reSearch re rest

/-- Python `re.findall`/`re.finditer`: non-overlapping matches scanning
left to right, returning each match's captured groups.  `fuel` bounds the
scan (callers pass the input length plus one). -/
def reFindAll (re : RE) : List Char → Nat → List Caps
  | _, 0 => []
  | [], _ + 1 =>
    match matchAt re [] with
    | some (gs, _) => [gs]
    | none => []
  | c :: rest, fuel + 1 =>
    match matchAt re (c :: rest) with
    | some (gs, remaining) =>
      if remaining.length < rest.length + 1 then gs :: reFindAll re remaining fuel
      else gs :: reFindAll re rest fuel
    | none => reFindAll re rest fuel

/-- All captured groups of all matches in a string. -/
def findAllIn (re : RE) (content : String) : List Caps :=
  reFindAll re content.toList (content.toList.length + 1)

/-- Boolean search in a string. -/
def searchIn (re : RE) (content : String) : Bool :=
  reSearch re content.toList

/-! ### Pattern-building helpers -/

/-- Sequence a list of pattern pieces. -/
def reSeqL : List RE → RE
  | [] => RE.lit []
  | [r] => r
  | r :: rs => RE.seq r (reSeqL rs)

/-- Ordered alternation of a list of pattern pieces. -/
def reAltL : List RE → RE
  | [] => RE.lit []
  | [r] => r
  | r :: rs => RE.alt r (reAltL rs)

/-- A literal string piece. -/
def reLit (s : String) : RE := RE.lit s.toList

/-- `\s*`. -/
def reWS : RE := RE.starC wsChar

/-- `\s+`. -/
def reWS1 : RE := RE.seq (RE.cls wsChar) (RE.starC wsChar)

/-- `.*` (greedy, not crossing newlines). -/
def reDotStar : RE := RE.starC dotChar

/-- `\w+`. -/
def reWord1 : RE := RE.seq (RE.cls wordChar) (RE.starC wordChar)

/-- `['\"]`. -/
def reQuote : RE := RE.cls quoteChar

/-- `([^}]+)` body: one or more non-`}` characters. -/
def reNotBrace1 : RE := RE.seq (RE.cls notCloseBrace) (RE.starC notCloseBrace)

/-- `([^'\"]+)` body. -/
def reNotQuote1 : RE := RE.seq (RE.cls notQuote) (RE.starC notQuote)

/-- A case-insensitive literal piece (for the patterns compiled with
`re.IGNORECASE`). -/
def reLitCI (s : String) : RE :=
  reSeqL (s.toList.map (fun c => RE.cls (fun x => x.toLower = c.toLower)))

/-! ### Python string helpers, over `List Char` -/

/-- Python `str.strip()`. -/
def pyStrip (cs : List Char) : List Char :=
  ((cs.dropWhile wsChar).reverse.dropWhile wsChar).reverse

/-- Index of the first occurrence of `sep` in `cs`, if any. -/
def findSub (sep : List Char) : List Char → Option Nat
  | [] => if sep.isEmpty then some 0 else none
  | c :: rest =>
    if sep.isPrefixOf (c :: rest) then some 0
    else (findSub sep rest).map (· + 1)

/-- Python `sep in s` (substring containment). -/
def hasSub (sep cs : List Char) : Bool := (findSub sep cs).isSome

/-- Python `str.split(sep)` for a nonempty separator, with fuel. -/
def pySplitF (sep : List Char) : List Char → Nat → List (List Char)
  | cs, 0 => [cs]
  | cs, fuel + 1 =>
    match findSub sep cs with
    | none => [cs]
    | some i => cs.take i :: pySplitF sep (cs.drop (i + sep.length)) fuel

/-- Python `str.split(sep)`. -/
def pySplit (sep cs : List Char) : List (List Char) :=
  pySplitF sep cs (cs.length + 1)

/-- Python `str.replace(old, new)` (all occurrences), for nonempty `old`. -/
def pyReplace (cs old new : List Char) : List Char :=
  List.intercalate new (pySplit old cs)

/-- `pre.isPrefixOf s` on strings. -/
def strStarts (s pre : String) : Bool := pre.toList.isPrefixOf s.toList

/-- `suf.isSuffixOf s` on strings. -/
def strEnds (s suf : String) : Bool := suf.toList.isSuffixOf s.toList

/-- Substring containment on strings. -/
def strHasSub (s sub : String) : Bool := hasSub sub.toList s.toList

/-- A single-quote string, for building the validator's messages. -/
def sq : String := "\x27"

/-- Surround with single quotes, as the validator's f-strings do. -/
def quoted (s : String) : String := sq ++ s ++ sq

/-! ### JSON values and a recursive-descent reader

`load_inputs` and `validate_package_json` call Python's `json.load`; the
embedding parses file content into this `Json` type.  Numbers keep their
lexeme (the validator never computes with them; only Python truthiness of
the stored value matters). -/

inductive Json where
  | null
  | bool (b : Bool)
  | num (lex : String)
  | str (s : String)
  | arr (xs : List Json)
  | obj (kvs : List (String × Json))

/-- JSON whitespace. -/
def jsonWsChar (c : Char) : Bool := c = ' ' || c = '\t' || c = '\n' || c = '\r'

/-- Hexadecimal digit value. -/
def hexVal (c : Char) : Option Nat :=
  if c.isDigit then some (c.toNat - 48)
  else if 'a' ≤ c && c ≤ 'f' then some (c.toNat - 87)
  else if 'A' ≤ c && c ≤ 'F' then some (c.toNat - 55)
  else none

/-- Characters allowed in a number lexeme. -/
def jsonNumChar (c : Char) : Bool :=
  c.isDigit || c = '-' || c = '+' || c = '.' || c = 'e' || c = 'E'

/-- Read the body of a JSON string literal (after the opening quote),
returning the decoded characters and the input after the closing quote. -/
def parseJStr : Nat → List Char → List Char → Option (List Char × List Char)
  | 0, _, _ => none
  | _ + 1, [], _ => none
  | fuel + 1, c :: rest, acc =>
    if c = dqChar then some (acc.reverse, rest)
    else if c = '\\' then
      match rest with
      | [] => none
      | e :: rest2 =>
        if e = 'n' then parseJStr fuel rest2 ('\n' :: acc)
        else if e = 't' then parseJStr fuel rest2 ('\t' :: acc)
        else if e = 'r' then parseJStr fuel rest2 ('\r' :: acc)
        else if e = 'b' then parseJStr fuel rest2 (Char.ofNat 8 :: acc)
        else if e = 'f' then parseJStr fuel rest2 (Char.ofNat 12 :: acc)
        else if e = 'u' then
          match rest2 with
          | h1 :: h2 :: h3 :: h4 :: rest3 =>
            match hexVal h1, hexVal h2, hexVal h3, hexVal h4 with
            | some a, some b, some c2, some d =>
              parseJStr fuel rest3 (Char.ofNat (((a * 16 + b) * 16 + c2) * 16 + d) :: acc)
            | _, _, _, _ => none
          | _ => none
        else parseJStr fuel rest2 (e :: acc)
    else parseJStr fuel rest (c :: acc)

mutual

/-- Parse one JSON value. -/
def parseJVal : Nat → List Char → Option (Json × List Char)
  | 0, _ => none
  | fuel + 1, cs =>
    match cs.dropWhile jsonWsChar with
    | [] => none
    | c :: rest =>
      if c = dqChar then
        match parseJStr (rest.length + 1) rest [] with
        | some (body, rest2) => some (Json.str (String.mk body), rest2)
        | none => none
      else if c = obChar then
        match (c :: rest).drop 1 |>.dropWhile jsonWsChar with
        | d :: rest2 =>
          if d = cbChar then some (Json.obj [], rest2)
          else
            match parseJMembers fuel (d :: rest2) with
            | some (kvs, rest3) => some (Json.obj kvs, rest3)
            | none => none
        | [] => none
      else if c = '[' then
        match rest.dropWhile jsonWsChar with
        | d :: rest2 =>
          if d = ']' then some (Json.arr [], rest2)
          else
            match parseJItems fuel (d :: rest2) with
            | some (xs, rest3) => some (Json.arr xs, rest3)
            | none => none
        | [] => none
      else if "true".toList.isPrefixOf (c :: rest) then
        some (Json.bool true, (c :: rest).drop 4)
      else if "false".toList.isPrefixOf (c :: rest) then
        some (Json.bool false, (c :: rest).drop 5)
      else if "null".toList.isPrefixOf (c :: rest) then
        some (Json.null, (c :: rest).drop 4)
      else if c.isDigit || c = '-' then
        let lex := (c :: rest).takeWhile jsonNumChar
        some (Json.num (String.mk lex), (c :: rest).drop lex.length)
      else none

/-- Parse comma-separated array items (first item starts immediately). -/
def parseJItems : Nat → List Char → Option (List Json × List Char)
  | 0, _ => none
  | fuel + 1, cs =>
    match parseJVal fuel cs with
    | none => none
    | some (v, rest) =>
      match rest.dropWhile jsonWsChar with
      | ',' :: rest2 =>
        match parseJItems fuel rest2 with
        | some (xs, rest3) => some (v :: xs, rest3)
        | none => none
      | ']' :: rest2 => some ([v], rest2)
      | _ => none

/-- Parse comma-separated object members (first key starts immediately). -/
def parseJMembers : Nat → List Char → Option (List (String × Json) × List Char)
  | 0, _ => none
  | fuel + 1, cs =>
    match cs.dropWhile jsonWsChar with
    | c :: rest =>
      if c = dqChar then
        match parseJStr (rest.length + 1) rest [] with
        | some (key, rest2) =>
          match rest2.dropWhile jsonWsChar with
          | ':' :: rest3 =>
            match parseJVal fuel rest3 with
            | some (v, rest4) =>
              match rest4.dropWhile jsonWsChar with
              | ',' :: rest5 =>
                match parseJMembers fuel rest5 with
                | some (kvs, rest6) => some ((String.mk key, v) :: kvs, rest6)
                | none => none
              | d :: rest5 =>
                if d = cbChar then some ([(String.mk key, v)], rest5) else none
              | [] => none
            | none => none
          | _ => none
        | none => none
      else none
    | [] => none

end

/-- Python `json.loads`: the whole input must be one JSON document. -/
def parseJson (s : String) : Option Json :=
  match parseJVal (s.toList.length + 1) s.toList with
  | some (v, rest) => if rest.dropWhile jsonWsChar = [] then some v else none
  | none => none

/-- Dictionary lookup; `json.load` keeps the last duplicate key. -/
def jLookup (kvs : List (String × Json)) (k : String) : Option Json :=
  (kvs.reverse.find? (fun e => e.1 = k)).map Prod.snd

/-- Python `d.get(k, default)` on an object (call sites ensure the receiver
is an object, mirroring the `AttributeError` paths explicitly). -/
def jGetD (j : Json) (k : String) (d : Json) : Json :=
  match j with
  | .obj kvs => (jLookup kvs k).getD d
  | _ => d

/-- Keys of a JSON object, in insertion order with later duplicates
dropped from their earlier position (Python dict key order). -/
def jKeys (j : Json) : List String :=
  match j with
  | .obj kvs => (kvs.map Prod.fst).foldl (fun acc k => if acc.contains k then acc else acc ++ [k]) []
  | _ => []

/-- Python truthiness of a JSON-decoded value. -/
def jTruthy : Json → Bool
  | .null => false
  | .bool b => b
  | .num lex => (lex.toList.takeWhile (fun c => c != 'e' && c != 'E')).any (fun c => c.isDigit && c != '0')
  | .str s => s.toList.length != 0
  | .arr xs => xs.length != 0
  | .obj kvs => kvs.length != 0

/-- Is the value a JSON object (a Python dict after `json.load`)? -/
def jIsObj : Json → Bool
  | .obj _ => true
  | _ => false

/-! ### The filesystem model

An association list from path strings to file data.  Paths in the list are
relative to the process working directory (the validator's `base_path` is
the relative `Path("generated_project")`).  `Path.resolve()` in
`_resolve_import_path` produces *absolute* paths; the model writes the
working directory as the prefix `/cwd/`.  Existence checks accept either
spelling of the same file (as the real filesystem does), while dictionary
keys compare as the raw path strings (as `pathlib.Path` equality does). -/

inductive FileData where
  | text (content : String)
  | unreadable (msg : String)
deriving DecidableEq, Repr

/-- A filesystem: path ↦ file data.  Directories exist exactly when some
file lies beneath them (the scenarios used below never need empty
directories). -/
abbrev FS := List (String × FileData)

/-- The absolute spelling prefix of the working directory. -/
def cwdMark : String := "/cwd/"

/-- Map an absolute path back to its working-directory-relative spelling
for filesystem access. -/
def fsKey (p : String) : String :=
  if strStarts p cwdMark then String.mk (p.toList.drop 5) else p

/-- Look a path up in the filesystem (either spelling). -/
def fsLookup (fs : FS) (p : String) : Option FileData :=
  (fs.find? (fun e => e.1 = fsKey p)).map Prod.snd

/-- Does the path name a directory (some file lies strictly below it)? -/
def fsIsDir (fs : FS) (p : String) : Bool :=
  fs.any (fun e => (fsKey p ++ "/").toList.isPrefixOf e.1.toList)

/-- `Path.exists()` / `os.path.exists`: file or directory. -/
def fsPathExists (fs : FS) (p : String) : Bool :=
  (fsLookup fs p).isSome || fsIsDir fs p

/-- Open and read a file; `none` models the read raising an exception
(missing file or unreadable content). -/
def fsRead (fs : FS) (p : String) : Option String :=
  match fsLookup fs p with
  | some (.text c) => some c
  | _ => none

/-- The text of the exception raised when reading the file (models the
interpolated `{e}` in the validator's error strings). -/
def fsReadErrMsg (fs : FS) (p : String) : String :=
  match fsLookup fs p with
  | some (.unreadable m) => m
  | _ => ""

/-! ### Paths -/

/-- Split a path into its nonempty segments. -/
def pathSegs (p : String) : List String :=
  ((pySplit "/".toList p.toList).map String.mk).filter (fun s => s ≠ "")

/-- Join segments with `/`. -/
def joinSegs (l : List String) : String := String.intercalate "/" l

/-- `Path.parent` for the paths the validator builds. -/
def parentDir (p : String) : String := joinSegs (pathSegs p).dropLast

/-- Normalise `.` and `..` segments, as `Path.resolve()` does. -/
def normSegs (segs : List String) : List String :=
  segs.foldl
    (fun acc seg =>
      if seg = "." then acc
      else if seg = ".." then acc.dropLast
      else acc ++ [seg])
    []

/-- `(Path(dir) / rel).resolve()`: join, normalise, and make absolute
against the working directory. -/
def pathResolve (dir rel : String) : String :=
  cwdMark ++ joinSegs (normSegs (pathSegs dir ++ pathSegs rel))

/-- The validator's `base_path`. -/
def basePath : String := "generated_project"

/-- Does the path contain a `node_modules` segment (pruned by both
`os.walk` loops)? -/
def hasNodeModules (p : String) : Bool := (pathSegs p).contains "node_modules"

/-- All files strictly beneath `dir`, in filesystem order, skipping
dependency caches: the `os.walk` traversal. -/
def fsFilesUnder (fs : FS) (dir : String) : List String :=
  (fs.filter (fun e => strStarts e.1 (dir ++ "/") && !hasNodeModules e.1)).map Prod.fst

/-- The TypeScript files the import validator walks. -/
def tsWalkFiles (fs : FS) : List String :=
  (fsFilesUnder fs (basePath ++ "/src")).filter
    (fun f => strEnds f ".ts" || strEnds f ".tsx")

/-- `dir.glob("*.tsx")`: immediate children with the extension. -/
def fsGlobTsx (fs : FS) (dir : String) : List String :=
  (fs.filter (fun e =>
    strStarts e.1 (dir ++ "/") &&
    !(strHasSub (String.mk (e.1.toList.drop (dir.toList.length + 1))) "/") &&
    strEnds e.1 ".tsx")).map Prod.fst

/-- `Path.stem`: final segment without its last extension. -/
def stemOf (p : String) : String :=
  let base := ((pathSegs p).getLast?).getD ""
  if hasSub ['.'] base.toList then
    String.mk (((base.toList.reverse.dropWhile (fun c => c != '.')).drop 1).reverse)
  else base

/-- Python `str.upper()` for the ASCII identifiers the rules derive. -/
def pyUpper (s : String) : String := String.mk (s.toList.map Char.toUpper)

/-- `file_path.relative_to(base_path)` rendered as a string. -/
def relToBase (p : String) : String :=
  if strStarts p (basePath ++ "/") then String.mk (p.toList.drop (basePath.toList.length + 1)) else p

/-! ### The validator's regular expressions, transcribed pattern by pattern -/

/-- `export\s+(?:interface|type|const|let|var|function|class)\s+(\w+)` -/
def reExportNamed : RE :=
  reSeqL [reLit "export", reWS1,
    reAltL [reLit "interface", reLit "type", reLit "const", reLit "let",
      reLit "var", reLit "function", reLit "class"],
    reWS1, RE.grp reWord1]

/-- `export\s*\{\s*([^}]+)\s*\}` -/
def reExportList : RE :=
  reSeqL [reLit "export", reWS, RE.lit [obChar], reWS, RE.grp reNotBrace1, reWS, RE.lit [cbChar]]

/-- `export\s+\*\s+from` -/
def reExportStar : RE := reSeqL [reLit "export", reWS1, reLit "*", reWS1, reLit "from"]

/-- `export\s+default` -/
def reExportDefault : RE := reSeqL [reLit "export", reWS1, reLit "default"]

/-- `import\s*\{\s*([^}]+)\s*\}\s*from\s*['\"]([^'\"]+)['\"]` -/
def reImportNamed : RE :=
  reSeqL [reLit "import", reWS, RE.lit [obChar], reWS, RE.grp reNotBrace1, reWS,
    RE.lit [cbChar], reWS, reLit "from", reWS, reQuote, RE.grp reNotQuote1, reQuote]

/-- `import\s+(\w+)\s+from\s+['\"]([^'\"]+)['\"]` -/
def reImportDefault : RE :=
  reSeqL [reLit "import", reWS1, RE.grp reWord1, reWS1, reLit "from", reWS1,
    reQuote, RE.grp reNotQuote1, reQuote]

/-- `import\s+\*\s+as\s+(\w+)\s+from\s+['\"]([^'\"]+)['\"]` -/
def reImportStarAs : RE :=
  reSeqL [reLit "import", reWS1, reLit "*", reWS1, reLit "as", reWS1, RE.grp reWord1,
    reWS1, reLit "from", reWS1, reQuote, RE.grp reNotQuote1, reQuote]

/-- `import.*React.*from\s+['\"]react['\"]` -/
def reImportReact : RE :=
  reSeqL [reLit "import", reDotStar, reLit "React", reDotStar, reLit "from", reWS1,
    reQuote, reLit "react", reQuote]

/-- `export\s+(const|function)\s+App` -/
def reExportApp : RE :=
  reSeqL [reLit "export", reWS1, RE.grp (reAltL [reLit "const", reLit "function"]),
    reWS1, reLit "App"]

/-- `import.*AppRouter.*from.*router` -/
def reImportAppRouter : RE :=
  reSeqL [reLit "import", reDotStar, reLit "AppRouter", reDotStar, reLit "from",
    reDotStar, reLit "router"]

/-- `import\s+['\"]\./App\.css['\"]` -/
def reImportAppCss : RE :=
  reSeqL [reLit "import", reWS1, reQuote, reLit "./App.css", reQuote]

/-- `<AppRouter\s*/?>` -/
def reAppRouterUse : RE :=
  reSeqL [reLit "<AppRouter", reWS, RE.opt (reLit "/"), reLit ">"]

/-- `import.*AuthProvider.*from` -/
def reImportAuthProvider : RE :=
  reSeqL [reLit "import", reDotStar, reLit "AuthProvider", reDotStar, reLit "from"]

/-- `<AuthProvider>` -/
def reAuthProviderTag : RE := reLit "<AuthProvider>"

/-- `import.*ReactDOM.*from\s+['\"]react-dom/client['\"]` -/
def reImportReactDOM : RE :=
  reSeqL [reLit "import", reDotStar, reLit "ReactDOM", reDotStar, reLit "from", reWS1,
    reQuote, reLit "react-dom/client", reQuote]

/-- `import.*App.*from.*App` -/
def reImportApp : RE :=
  reSeqL [reLit "import", reDotStar, reLit "App", reDotStar, reLit "from", reDotStar, reLit "App"]

/-- `import\s+['\"]\./index\.css['\"]` -/
def reImportIndexCss : RE :=
  reSeqL [reLit "import", reWS1, reQuote, reLit "./index.css", reQuote]

/-- `ReactDOM\.createRoot` -/
def reCreateRoot : RE := reLit "ReactDOM.createRoot"

/-- `<React\.StrictMode>` -/
def reStrictMode : RE := reLit "<React.StrictMode>"

/-- `getElementById\(['\"]root['\"]` -/
def reGetRoot : RE :=
  reSeqL [reLit "getElementById(", reQuote, reLit "root", reQuote]

/-- `{re.escape(selector)}\s*\{` for the required CSS selectors. -/
def reSelector (s : String) : RE := reSeqL [reLit s, reWS, RE.lit [obChar]]

/-- `box-sizing\s*:\s*border-box` -/
def reBoxSizing : RE :=
  reSeqL [reLit "box-sizing", reWS, reLit ":", reWS, reLit "border-box"]

/-- `body\s*\{` -/
def reBodyBrace : RE := reSeqL [reLit "body", reWS, RE.lit [obChar]]

/-- `(:root|html)\s*\{` -/
def reRootHtml : RE :=
  reSeqL [RE.grp (reAltL [reLit ":root", reLit "html"]), reWS, RE.lit [obChar]]

/-- `import.*createContext.*from\s+['\"]react['\"]` -/
def reImportCreateContext : RE :=
  reSeqL [reLit "import", reDotStar, reLit "createContext", reDotStar, reLit "from",
    reWS1, reQuote, reLit "react", reQuote]

/-- `import.*useContext.*from\s+['\"]react['\"]` -/
def reImportUseContext : RE :=
  reSeqL [reLit "import", reDotStar, reLit "useContext", reDotStar, reLit "from",
    reWS1, reQuote, reLit "react", reQuote]

/-- `const\s+AuthContext\s*=\s*createContext` -/
def reAuthContextCreate : RE :=
  reSeqL [reLit "const", reWS1, reLit "AuthContext", reWS, reLit "=", reWS, reLit "createContext"]

/-- `export\s+(const|function)\s+AuthProvider` -/
def reExportAuthProvider : RE :=
  reSeqL [reLit "export", reWS1, RE.grp (reAltL [reLit "const", reLit "function"]),
    reWS1, reLit "AuthProvider"]

/-- `export\s+(const|function)\s+useAuth` -/
def reExportUseAuth : RE :=
  reSeqL [reLit "export", reWS1, RE.grp (reAltL [reLit "const", reLit "function"]),
    reWS1, reLit "useAuth"]

/-- `{method}\s*[:=]` for the required auth methods. -/
def reMethodDef (m : String) : RE :=
  reSeqL [reLit m, reWS, RE.cls (fun c => c = ':' || c = '=')]

/-- `export\s+\*\s+from\s+['\"]\./AuthContext['\"]` -/
def reExportStarAuthContext : RE :=
  reSeqL [reLit "export", reWS1, reLit "*", reWS1, reLit "from", reWS1,
    reQuote, reLit "./AuthContext", reQuote]

/-- `<!DOCTYPE html>` with `re.IGNORECASE`. -/
def reDoctype : RE := reLitCI "<!DOCTYPE html>"

/-- `<meta\s+charset=[\"']UTF-8[\"']` with `re.IGNORECASE`. -/
def reMetaCharset : RE :=
  reSeqL [reLitCI "<meta", reWS1, reLitCI "charset=", reQuote, reLitCI "UTF-8", reQuote]

/-- `<meta\s+name=[\"']viewport[\"']` with `re.IGNORECASE`. -/
def reMetaViewport : RE :=
  reSeqL [reLitCI "<meta", reWS1, reLitCI "name=", reQuote, reLitCI "viewport", reQuote]

/-- `<div\s+id=[\"']root[\"']` -/
def reRootDiv : RE :=
  reSeqL [reLit "<div", reWS1, reLit "id=", reQuote, reLit "root", reQuote]

/-- `<script.*src=[\"'].*main\.tsx[\"']` -/
def reScriptMain : RE :=
  reSeqL [reLit "<script", reDotStar, reLit "src=", reQuote, reDotStar, reLit "main.tsx", reQuote]

/-- `{route_constant}\s*:` -/
def reRouteConst (c : String) : RE := reSeqL [reLit c, reWS, reLit ":"]

/-- `import.*{view_name}.*from.*views` -/
def reViewImport (v : String) : RE :=
  reSeqL [reLit "import", reDotStar, reLit v, reDotStar, reLit "from", reDotStar, reLit "views"]

/-- `<Route.*element=\{<{view_name}` -/
def reViewRoute (v : String) : RE :=
  reSeqL [reLit "<Route", reDotStar, reLit ("element=\x7b<" ++ v)]

/-- `export.*tokenStorage` -/
def reTokenStorage : RE := reSeqL [reLit "export", reDotStar, reLit "tokenStorage"]

/-- `export.*{component_name}` -/
def reExportName (n : String) : RE := reSeqL [reLit "export", reDotStar, reLit n]

/-! ### Symbol and reference extraction (`_scan_file_exports`,
`_scan_file_imports`) -/

/-- `s.strip().split(' as ')[0].strip()`: the local name of an
export-list or import-list item. -/
def itemLocalName (s : List Char) : String :=
  String.mk (pyStrip ((pySplit " as ".toList (pyStrip s)).headD []))

/-- `_scan_file_exports` applied to file content.  The Python function
accumulates a `set`; the embedding keeps the contributions as a list in
pattern order and uses it only through membership. -/
def scanExportsContent (content : String) : List String :=
  let cs := content.toList
  let named := (reFindAll reExportNamed cs (cs.length + 1)).map (fun gs => String.mk (gs.headD []))
  let decls := (reFindAll reExportList cs (cs.length + 1)).map (fun gs => gs.headD [])
  let listSyms := decls.flatMap (fun decl => (pySplit ",".toList decl).map itemLocalName)
  named ++ listSyms ++
    (if reSearch reExportStar cs then ["*"] else []) ++
    (if reSearch reExportDefault cs then ["default"] else [])

/-- `_scan_file_exports`: a failing read is swallowed by the bare
`except: pass`, leaving the empty export set and recording nothing. -/
def scanFileExports (fs : FS) (p : String) : List String :=
  match fsRead fs p with
  | some c => scanExportsContent c
  | none => []

/-- `_scan_file_imports` applied to file content: grouped references,
then default-style references, then namespace references, each a list of
requested names paired with the module specifier. -/
def scanImportsContent (content : String) : List (List String × String) :=
  let cs := content.toList
  let named := (reFindAll reImportNamed cs (cs.length + 1)).map (fun gs =>
    ((pySplit ",".toList (gs.headD [])).map itemLocalName, String.mk ((gs.drop 1).headD [])))
  let defaults := (reFindAll reImportDefault cs (cs.length + 1)).map (fun gs =>
    ([String.mk (gs.headD [])], String.mk ((gs.drop 1).headD [])))
  let wildcards := (reFindAll reImportStarAs cs (cs.length + 1)).map (fun gs =>
    ([String.mk (gs.headD [])], String.mk ((gs.drop 1).headD [])))
  named ++ defaults ++ wildcards

/-- `_scan_file_imports`: a failing read is swallowed by the bare
`except: pass`, yielding no references and recording nothing. -/
def scanFileImports (fs : FS) (p : String) : List (List String × String) :=
  match fsRead fs p with
  | some c => scanImportsContent c
  | none => []

/-! ### Module resolution (`_resolve_import_path`,
`_extract_package_name`) -/

/-- `_resolve_import_path`: for a relative specifier, resolve against
the importing file's directory (`Path.resolve()` makes the result absolute),
then probe `str(resolved) + ext` for each extension in
`['.ts', '.tsx', '.js', '.jsx', '.css']` and finally, for the empty
extension, `resolved / 'index.ts'` and `resolved / 'index.tsx'`.  The
first existing candidate wins; the exact resolved path itself is never
probed. -/
def resolveImportPath (fs : FS) (importingFile : String) (importPath : String) : Option String :=
  if strStarts importPath "." then
    let resolved := pathResolve (parentDir importingFile) importPath
    if fsPathExists fs (resolved ++ ".ts") then some (resolved ++ ".ts")
    else if fsPathExists fs (resolved ++ ".tsx") then some (resolved ++ ".tsx")
    else if fsPathExists fs (resolved ++ ".js") then some (resolved ++ ".js")
    else if fsPathExists fs (resolved ++ ".jsx") then some (resolved ++ ".jsx")
    else if fsPathExists fs (resolved ++ ".css") then some (resolved ++ ".css")
    else if fsPathExists fs (resolved ++ "/index.ts") then some (resolved ++ "/index.ts")
    else if fsPathExists fs (resolved ++ "/index.tsx") then some (resolved ++ "/index.tsx")
    else none
  else none

/-- `_extract_package_name`. -/
def extract_package_name (importPath : String) : Option String :=
  if strStarts importPath "@" then
    let parts := (pySplit "/".toList importPath.toList).map String.mk
    if 2 ≤ parts.length then some (parts.headD "" ++ "/" ++ ((parts.drop 1).headD ""))
    else some (parts.headD "")
  else
    let parts := (pySplit "/".toList importPath.toList).map String.mk
    parts.head?

/-! ### Validator state and the rule catalogue

One state transformer per `validate_*` method of `Stage5Validator`,
threaded in the call order of `validate()`.  `errors`, `warnings` and
`results` accumulate exactly as the Python attributes do.  The text a
Python f-string interpolates from a caught exception is not derivable
from the file model; it is written as the fixed placeholders below. -/

/-- Placeholder for interpolated generic exception text. -/
def pyExcText : String := "<exception>"

/-- Placeholder for interpolated `json.JSONDecodeError` text. -/
def jsonDecodeErrText : String := "<json-decode-error>"

structure VState where
  authEnabled : Bool
  errors : List String
  warnings : List String
  results : List (String × Bool)
  fileExports : List (String × List String)
  installedPackages : List String
deriving DecidableEq, Repr

/-- The freshly constructed validator, after `load_inputs` has set the
authentication flag. -/
def initState (auth : Bool) : VState := ⟨auth, [], [], [], [], []⟩

/-- The shared commit tail of every rule: prefix each file error with the
rule name, and record the rule outcome. -/
def commitResult (s : VState) (name : String) (fileErrors : List String) : VState :=
  if fileErrors.isEmpty then { s with results := s.results ++ [(name, true)] }
  else
    { s with
      errors := s.errors ++ fileErrors.map (fun e => name ++ ": " ++ e)
      results := s.results ++ [(name, false)] }

/-- The shared `File not found` early return of the presence rules. -/
def missingFile (s : VState) (name msg : String) : VState :=
  { s with
    errors := s.errors ++ [name ++ ": " ++ msg]
    results := s.results ++ [(name, false)] }

/-- `validate_app_component`. -/
def validate_app_component (fs : FS) (s : VState) : VState :=
  let name := "App Component"
  let appFile := basePath ++ "/src/App.tsx"
  if !(fsPathExists fs appFile) then missingFile s name "File not found - src/App.tsx"
  else
    let fileErrors :=
      match fsRead fs appFile with
      | none => ["Error reading file: " ++ fsReadErrMsg fs appFile]
      | some content =>
        (if searchIn reImportReact content then [] else ["Missing React import"]) ++
        (if searchIn reExportApp content then [] else ["Missing App component export"]) ++
        (if searchIn reImportAppRouter content then [] else ["Missing AppRouter import from router"]) ++
        (if searchIn reImportAppCss content then [] else ["Missing App.css import"]) ++
        (if searchIn reAppRouterUse content then [] else ["AppRouter component not used"]) ++
        (if s.authEnabled then
          (if searchIn reImportAuthProvider content then []
           else ["Auth enabled but missing AuthProvider import"]) ++
          (if searchIn reAuthProviderTag content then []
           else ["Auth enabled but AuthProvider not wrapping AppRouter"])
         else [])
    commitResult s name fileErrors

/-- `validate_main_entry`. -/
def validate_main_entry (fs : FS) (s : VState) : VState :=
  let name := "Main Entry Point"
  let mainFile := basePath ++ "/src/main.tsx"
  if !(fsPathExists fs mainFile) then missingFile s name "File not found - src/main.tsx"
  else
    match fsRead fs mainFile with
    | none => commitResult s name ["Error reading file: " ++ fsReadErrMsg fs mainFile]
    | some content =>
      let fileErrors :=
        (if searchIn reImportReact content then [] else ["Missing React import"]) ++
        (if searchIn reImportReactDOM content then []
         else ["Missing ReactDOM import from " ++ quoted "react-dom/client"]) ++
        (if searchIn reImportApp content then [] else ["Missing App component import"]) ++
        (if searchIn reImportIndexCss content then [] else ["Missing index.css import"]) ++
        (if searchIn reCreateRoot content then [] else ["Not using React 18 createRoot API"]) ++
        (if searchIn reGetRoot content then [] else ["Missing root element selection"])
      let warns :=
        if searchIn reStrictMode content then []
        else [name ++ ": Should wrap App in React.StrictMode"]
      commitResult { s with warnings := s.warnings ++ warns } name fileErrors

/-- The selectors `validate_app_css` requires. -/
def requiredSelectors : List String := [".app", ".layout", ".navbar", "button"]

/-- `validate_app_css`. -/
def validate_app_css (fs : FS) (s : VState) : VState :=
  let name := "App.css Styles"
  let cssFile := basePath ++ "/src/App.css"
  if !(fsPathExists fs cssFile) then missingFile s name "File not found - src/App.css"
  else
    match fsRead fs cssFile with
    | none => commitResult s name ["Error reading file: " ++ fsReadErrMsg fs cssFile]
    | some content =>
      commitResult s name (requiredSelectors.filterMap (fun sel =>
        if searchIn (reSelector sel) content then none
        else some ("Missing styles for " ++ quoted sel)))

/-- `validate_index_css`. -/
def validate_index_css (fs : FS) (s : VState) : VState :=
  let name := "index.css Reset"
  let cssFile := basePath ++ "/src/index.css"
  if !(fsPathExists fs cssFile) then missingFile s name "File not found - src/index.css"
  else
    match fsRead fs cssFile with
    | none => commitResult s name ["Error reading file: " ++ fsReadErrMsg fs cssFile]
    | some content =>
      let fileErrors :=
        (if searchIn reBoxSizing content then [] else ["Missing box-sizing reset"]) ++
        (if searchIn reBodyBrace content then [] else ["Missing body styles"])
      let warns :=
        if searchIn reRootHtml content then []
        else [name ++ ": Should include :root or html styles"]
      commitResult { s with warnings := s.warnings ++ warns } name fileErrors

/-- The required textual markers of `validate_auth_context`, in source
order, paired with the Finding text emitted when each is absent. -/
def authMarkerChecks : List (RE × String) :=
  [(reImportCreateContext, "Missing createContext import from React"),
   (reImportUseContext, "Missing useContext import from React"),
   (reAuthContextCreate, "Missing AuthContext creation with createContext"),
   (reExportAuthProvider, "Missing AuthProvider export"),
   (reExportUseAuth, "Missing useAuth hook export"),
   (reMethodDef "login", "Missing login method"),
   (reMethodDef "logout", "Missing logout method")]

/-- `validate_auth_context`. -/
def validate_auth_context (fs : FS) (s : VState) : VState :=
  let name := "Auth Context"
  let authFile := basePath ++ "/src/context/AuthContext.tsx"
  if !s.authEnabled then { s with results := s.results ++ [(name, true)] }
  else if !(fsPathExists fs authFile) then
    missingFile s name "File not found - src/context/AuthContext.tsx (auth is enabled)"
  else
    match fsRead fs authFile with
    | none => commitResult s name ["Error reading file: " ++ fsReadErrMsg fs authFile]
    | some content =>
      commitResult s name (authMarkerChecks.filterMap (fun chk =>
        if searchIn chk.1 content then none else some chk.2))

/-- `validate_context_barrel_exports`. -/
def validate_context_barrel_exports (fs : FS) (s : VState) : VState :=
  let name := "Context Barrel Exports"
  let contextDir := basePath ++ "/src/context"
  if !(fsPathExists fs contextDir) || !s.authEnabled then
    { s with results := s.results ++ [(name, true)] }
  else
    let contextIndex := contextDir ++ "/index.ts"
    if !(fsPathExists fs contextIndex) then
      missingFile s name "File not found - src/context/index.ts"
    else
      match fsRead fs contextIndex with
      | none => commitResult s name ["Error reading file: " ++ fsReadErrMsg fs contextIndex]
      | some content =>
        commitResult s name
          (if s.authEnabled then
            (if searchIn reExportStarAuthContext content then []
             else ["Missing export for AuthContext"])
           else [])

/-- `validate_html_template`. -/
def validate_html_template (fs : FS) (s : VState) : VState :=
  let name := "HTML Template"
  let htmlFile := basePath ++ "/index.html"
  if !(fsPathExists fs htmlFile) then missingFile s name "File not found - index.html"
  else
    match fsRead fs htmlFile with
    | none => commitResult s name ["Error reading file: " ++ fsReadErrMsg fs htmlFile]
    | some content =>
      commitResult s name
        ((if searchIn reDoctype content then [] else ["Missing DOCTYPE declaration"]) ++
         (if searchIn reMetaCharset content then [] else ["Missing charset meta tag"]) ++
         (if searchIn reMetaViewport content then [] else ["Missing viewport meta tag"]) ++
         (if searchIn reRootDiv content then [] else ["Missing root div element"]) ++
         (if searchIn reScriptMain content then [] else ["Missing script tag for main.tsx"]))

/-- `validate_html_location`. -/
def validate_html_location (fs : FS) (s : VState) : VState :=
  let name := "HTML Template Location"
  if !(fsPathExists fs (basePath ++ "/index.html")) then
    missingFile s name "index.html not found in project root (generated_project/)"
  else { s with results := s.results ++ [(name, true)] }

/-- Required runtime dependencies of `validate_package_json`. -/
def requiredDeps : List String := ["react", "react-dom", "react-router-dom", "axios"]

/-- Required development dependencies of `validate_package_json`. -/
def requiredDevDeps : List String :=
  ["@types/react", "@types/react-dom", "@vitejs/plugin-react", "typescript", "vite"]

/-- Required scripts of `validate_package_json`. -/
def requiredScripts : List String := ["dev", "build"]

/-- `validate_package_json`.  A top-level or nested non-object where the
code calls `.get`/`in` raises and lands in the generic handler; between
computing the merged keys and using `scripts`, the code has already
stored `installed_packages`. -/
def validate_package_json (fs : FS) (s : VState) : VState :=
  let name := "Package.json Dependencies"
  let pkgFile := basePath ++ "/package.json"
  if !(fsPathExists fs pkgFile) then missingFile s name "File not found - package.json"
  else
    match fsRead fs pkgFile with
    | none => commitResult s name ["Error reading file: " ++ fsReadErrMsg fs pkgFile]
    | some content =>
      match parseJson content with
      | none => commitResult s name ["Invalid JSON: " ++ jsonDecodeErrText]
      | some pkg =>
        if !(jIsObj pkg) then commitResult s name ["Error reading file: " ++ pyExcText]
        else
          let deps := jGetD pkg "dependencies" (Json.obj [])
          let devDeps := jGetD pkg "devDependencies" (Json.obj [])
          if !(jIsObj deps && jIsObj devDeps) then
            commitResult s name ["Error reading file: " ++ pyExcText]
          else
            let allDeps := (jKeys deps ++ jKeys devDeps).foldl
              (fun acc k => if acc.contains k then acc else acc ++ [k]) []
            let s2 := { s with installedPackages := allDeps }
            let scripts := jGetD pkg "scripts" (Json.obj [])
            if !(jIsObj scripts) then commitResult s2 name ["Error reading file: " ++ pyExcText]
            else
              commitResult s2 name
                (requiredDeps.filterMap (fun d =>
                  if allDeps.contains d then none
                  else some ("Missing required dependency: " ++ d)) ++
                 requiredDevDeps.filterMap (fun d =>
                  if allDeps.contains d then none
                  else some ("Missing required dev dependency: " ++ d)) ++
                 requiredScripts.filterMap (fun sc =>
                  if (jKeys scripts).contains sc then none
                  else some ("Missing script: " ++ sc)))

/-- The fixed file list of `validate_no_previous_modifications`. -/
def criticalFiles : List String :=
  ["src/router/index.tsx", "src/router/routes.ts", "src/components/Layout.tsx",
   "src/components/Navbar.tsx", "src/services/api.ts"]

/-- `validate_no_previous_modifications`. -/
def validate_no_previous_modifications (fs : FS) (s : VState) : VState :=
  let name := "No Previous Stage Modifications"
  commitResult s name (criticalFiles.filterMap (fun f =>
    if fsPathExists fs (basePath ++ "/" ++ f) then none
    else some ("Critical file missing or moved: " ++ f)))

/-- The per-view body of `validate_route_view_matching`: derive the route
constant by deleting every `View` occurrence and upper-casing, then
require the constant in `routes.ts` and the import and rendered `Route`
in `router/index.tsx`. -/
def checkView (routesContent routerContent viewName : String) : List String :=
  let entityName := String.mk (pyReplace viewName.toList "View".toList "".toList)
  let routeConstant := pyUpper entityName
  (if searchIn (reRouteConst routeConstant) routesContent then []
   else ["View " ++ quoted viewName ++ " missing route constant in routes.ts"]) ++
  (if searchIn (reViewImport viewName) routerContent then []
   else ["View " ++ quoted viewName ++ " not imported in router/index.tsx"]) ++
  (if searchIn (reViewRoute viewName) routerContent then []
   else ["View " ++ quoted viewName ++ " not used in any Route in router/index.tsx"])

/-- `validate_route_view_matching`. -/
def validate_route_view_matching (fs : FS) (s : VState) : VState :=
  let name := "Route-View Matching"
  let viewsPath := basePath ++ "/src/views"
  let routesFile := basePath ++ "/src/router/routes.ts"
  let routerFile := basePath ++ "/src/router/index.tsx"
  if !(fsPathExists fs viewsPath) then { s with results := s.results ++ [(name, true)] }
  else if !(fsPathExists fs routesFile) then missingFile s name "routes.ts not found"
  else if !(fsPathExists fs routerFile) then missingFile s name "router/index.tsx not found"
  else
    let viewFiles := ((fsGlobTsx fs viewsPath).map stemOf).filter
      (fun v => v ≠ "Home" && v ≠ "NotFound")
    match fsRead fs routesFile, fsRead fs routerFile with
    | some routesContent, some routerContent =>
      commitResult s name (viewFiles.flatMap (checkView routesContent routerContent))
    | _, _ => commitResult s name ["Error validating routes: " ++ pyExcText]

/-- `validate_storage_exports`. -/
def validate_storage_exports (fs : FS) (s : VState) : VState :=
  let name := "Storage Exports"
  let storageFile := basePath ++ "/src/utils/storage.ts"
  if !(fsPathExists fs storageFile) then { s with results := s.results ++ [(name, true)] }
  else
    match fsRead fs storageFile with
    | none => commitResult s name ["Error reading storage.ts: " ++ fsReadErrMsg fs storageFile]
    | some content =>
      commitResult s name
        (if searchIn reTokenStorage content then []
         else ["tokenStorage not exported from storage.ts"])

/-- `validate_component_barrel_exports`. -/
def validate_component_barrel_exports (fs : FS) (s : VState) : VState :=
  let name := "Component Barrel Exports"
  let componentsIndex := basePath ++ "/src/components/index.ts"
  let componentsDir := basePath ++ "/src/components"
  if !(fsPathExists fs componentsDir) || !(fsPathExists fs componentsIndex) then
    { s with results := s.results ++ [(name, true)] }
  else
    let componentFiles := ((fsGlobTsx fs componentsDir).map stemOf).filter
      (fun n => n ≠ "Layout" && n ≠ "Navbar" && n ≠ "Sidebar")
    match fsRead fs componentsIndex with
    | none => commitResult s name ["Error validating component exports: " ++ pyExcText]
    | some content =>
      commitResult s name (componentFiles.filterMap (fun n =>
        if searchIn (reExportName n) content then none
        else some ("Component " ++ quoted n ++ " not exported from components/index.ts")))

/-- The per-symbol acceptance check of `validate_imports` (the loop after
`'*' in available_exports` has been tested): a requested symbol passes
unless it is absent from the target's export set *and* `default` is also
absent; each rejected symbol yields one Finding naming the symbol and the
specifier. -/
def symbolErrors (relPath fromPath : String) (symbols availableExports : List String) :
    List String :=
  if availableExports.contains "*" then []
  else symbols.filterMap (fun sym =>
    if !availableExports.contains sym && !availableExports.contains "default" then
      some (relPath ++ ": Symbol " ++ quoted sym ++ " not exported from " ++ quoted fromPath)
    else none)

/-- The per-file body of the second `validate_imports` walk, accumulating
`(import_errors, external_imports)`.  `external_imports` is a Python set;
it is modelled as a first-insertion-ordered deduplicated list. -/
def importStep (fs : FS) (fileExports : List (String × List String)) (f : String)
    (acc : List String × List String) : List String × List String :=
  (scanFileImports fs f).foldl (fun acc2 imp =>
    let symbols := imp.1
    let fromPath := imp.2
    if strStarts fromPath "." then
      if strEnds fromPath ".css" then acc2
      else
        match resolveImportPath fs f fromPath with
        | none =>
          (acc2.1 ++ [relToBase f ++ ": Import path not found " ++ quoted fromPath], acc2.2)
        | some resolvedPath =>
          if strEnds resolvedPath ".css" then acc2
          else
            match (fileExports.find? (fun e => e.1 = resolvedPath)).map Prod.snd with
            | none => acc2
            | some availableExports =>
              (acc2.1 ++ symbolErrors (relToBase f) fromPath symbols availableExports, acc2.2)
    else
      match extract_package_name fromPath with
      | some pkg =>
        if pkg ≠ "" then
          (if acc2.2.contains pkg then acc2 else (acc2.1, acc2.2 ++ [pkg]))
        else acc2
      | none => acc2) acc

/-- `validate_imports`. -/
def validate_imports (fs : FS) (s : VState) : VState :=
  let name := "Import Validation"
  if !(fsPathExists fs (basePath ++ "/src")) then
    { s with results := s.results ++ [(name, true)] }
  else
    let files := tsWalkFiles fs
    let fileExports := files.map (fun f => (f, scanFileExports fs f))
    let acc := files.foldl (fun a f => importStep fs fileExports f a) ([], [])
    let importErrors := acc.1 ++ acc.2.filterMap (fun pkg =>
      if s.installedPackages.contains pkg then none
      else some ("Package " ++ quoted pkg ++ " is imported but not in package.json dependencies"))
    commitResult { s with fileExports := fileExports } name importErrors

/-! ### `load_inputs`, `validate` and `main` -/

/-- `load_inputs`: read and parse both schema documents and extract the
authentication flag; `none` models the caught exception (the method
returning `False` after appending its loading error). -/
def load_inputs (fs : FS) (erdPath openapiPath : String) : Option Bool :=
  match fsRead fs erdPath with
  | none => none
  | some c =>
    match parseJson c with
    | none => none
    | some erd =>
      if !(jIsObj erd) then none
      else
        let businessLogic := jGetD erd "business_logic" (Json.obj [])
        if !(jIsObj businessLogic) then none
        else
          let authentication := jGetD businessLogic "authentication" (Json.obj [])
          if !(jIsObj authentication) then none
          else
            let enabled := jGetD authentication "enabled" (Json.bool false)
            match fsRead fs openapiPath with
            | none => none
            | some c2 =>
              match parseJson c2 with
              | none => none
              | some _ => some (jTruthy enabled)

/-- The printed summary, as a value: pass/fail partition, the numbered
error and warning lists, and the statistics section. -/
structure Report where
  passed : List String
  failed : List String
  errors : List String
  warnings : List String
  tsFilesScanned : Nat
  filesWithExports : Nat
  externalPackages : Nat
deriving DecidableEq, Repr

/-- Build the summary from the final state, recomputing the statistics
walk as `validate` does. -/
def mkReport (fs : FS) (s : VState) : Report :=
  { passed := (s.results.filter (fun r => r.2 = true)).map Prod.fst
    failed := (s.results.filter (fun r => r.2 = false)).map Prod.fst
    errors := s.errors
    warnings := s.warnings
    tsFilesScanned :=
      (if fsPathExists fs (basePath ++ "/src") then tsWalkFiles fs else []).length
    filesWithExports := s.fileExports.length
    externalPackages := s.installedPackages.length }

/-- The fourteen rules, listed in the call order of `validate()`. -/
def rulesInOrder : List (FS → VState → VState) :=
  [validate_app_component, validate_main_entry, validate_app_css, validate_index_css,
   validate_auth_context, validate_context_barrel_exports, validate_html_template,
   validate_html_location, validate_package_json, validate_no_previous_modifications,
   validate_route_view_matching, validate_storage_exports, validate_component_barrel_exports,
   validate_imports]

/-- Run the fourteen rules in the call order of `validate()`. -/
def runAllRules (fs : FS) (s : VState) : VState :=
  rulesInOrder.foldl (fun st r => r fs st) s

/-- Outcome of `validate()`: the Boolean it returns, the rendered report
(`none` when `load_inputs` failed and the method returned before the
summary), and the final state. -/
structure VOut where
  success : Bool
  report : Option Report
  state : VState
deriving DecidableEq, Repr

/-- The validator state after `load_inputs` has failed. -/
def loadFailState : VState :=
  { initState false with errors := ["Error loading inputs: " ++ pyExcText] }

/-- `Stage5Validator.validate`. -/
def validate (fs : FS) (erdPath openapiPath : String) : VOut :=
  match load_inputs fs erdPath openapiPath with
  | none => ⟨false, none, loadFailState⟩
  | some flag =>
    let s := runAllRules fs (initState flag)
    ⟨s.errors.isEmpty, some (mkReport fs s), s⟩

/-- Outcome of `main`: the process exit status and the report, `none`
when the run aborted before the summary. -/
structure MainOut where
  exitCode : Nat
  report : Option Report
deriving DecidableEq, Repr

/-- `main` with the two schema paths already extracted from `argv`. -/
def mainRun (fs : FS) (erdPath openapiPath : String) : MainOut :=
  if fsPathExists fs erdPath then
    if fsPathExists fs openapiPath then
      let v := validate fs erdPath openapiPath
      ⟨if v.success then 0 else 1, v.report⟩
    else ⟨1, none⟩
  else ⟨1, none⟩

/-! ### Spec-side definitions for refinement comparison -/

/-- Modelled from the spec: the resolution-soundness acceptance
condition — a requested name is admissible iff it is the sentinel
`default` with the target exporting `default`, or is present verbatim in
the target's export set, or the export set contains `*`. -/
def specImportAccepts (name : String) (exports : List String) : Bool :=
  (name = "default" && exports.contains "default") ||
    exports.contains name || exports.contains "*"

/-- The candidate targets `_resolve_import_path` actually probes, in
order: the resolved path extended by each extension, then the two index
files beneath it. -/
def resolveCandidates (importingFile importPath : String) : List String :=
  let resolved := pathResolve (parentDir importingFile) importPath
  [resolved ++ ".ts", resolved ++ ".tsx", resolved ++ ".js", resolved ++ ".jsx",
   resolved ++ ".css", resolved ++ "/index.ts", resolved ++ "/index.tsx"]

/-- Modelled from the spec: the probe order claimed for the resolver,
with the exact resolved path probed *first*, before the extension and
index fallbacks. -/
def specResolveOrder (fs : FS) (importingFile importPath : String) : Option String :=
  if strStarts importPath "." then
    let resolved := pathResolve (parentDir importingFile) importPath
    (resolved :: resolveCandidates importingFile importPath).find? (fun c => fsPathExists fs c)
  else none

/-! ### Concrete scenario fixtures used by the claim theorems -/

/-- C1: `a.ts` requests `Foo` from `./b`; `b.ts` exports only `Bar`. -/
def fsC1 : FS :=
  [("generated_project/src/a.ts", FileData.text "import \x7b Foo \x7d from \x27./b\x27"),
   ("generated_project/src/b.ts", FileData.text "export const Bar = 1")]

/-- C3: the importing file and a target whose exact path exists but which
no extension or index probe can hit. -/
def fsC3 : FS :=
  [("generated_project/src/a.ts", FileData.text ""),
   ("generated_project/src/foo.svg", FileData.text "")]

/-- C4: the auth-context file exists with empty content, so every
required marker is missing. -/
def fsC4present : FS :=
  [("generated_project/src/context/AuthContext.tsx", FileData.text "")]

/-- C5: a file whose only export statement is an aliased export list. -/
def c5content : String := "export \x7b foo as bar \x7d"

/-- C6: a lone unreadable TypeScript file under `src`. -/
def fsC6 : FS := [("generated_project/src/Bad.ts", FileData.unreadable "boom")]

/-- C6: an unreadable file next to a file with a broken import. -/
def fsC6b : FS :=
  [("generated_project/src/Bad.ts", FileData.unreadable "boom"),
   ("generated_project/src/Good.ts", FileData.text "import \x7b X \x7d from \x27./missing\x27")]

/-- C6: an existing but unreadable `App.tsx`. -/
def fsC6c : FS := [("generated_project/src/App.tsx", FileData.unreadable "boom")]

/-- C2: both schema documents present and parsable, no artifact tree. -/
def fsSchemas : FS :=
  [("erd.json", FileData.text "\x7b\x7d"), ("openapi.json", FileData.text "\x7b\x7d")]

/-- C7: both schema documents present, the artifact-tree root absent. -/
def fsNoRoot : FS :=
  [("erd.json", FileData.text "\x7b\x7d"), ("openapi.json", FileData.text "\x7b\x7d")]

/-- C8: `OrderView.tsx` exists; `routes.ts` lacks an `ORDER` constant;
the router imports and renders the view. -/
def fsC8 : FS :=
  [("generated_project/src/views/OrderView.tsx", FileData.text ""),
   ("generated_project/src/router/routes.ts",
     FileData.text "export const ROUTES = \x7b HOME: \x27/\x27 \x7d"),
   ("generated_project/src/router/index.tsx",
     FileData.text "import \x7b OrderView \x7d from \x27../views\x27\n<Route path=\x27/order\x27 element=\x7b<OrderView /> \x7d />")]

/-- C8: the same tree after adding the `ORDER` constant. -/
def fsC8fixed : FS :=
  [("generated_project/src/views/OrderView.tsx", FileData.text ""),
   ("generated_project/src/router/routes.ts",
     FileData.text "export const ROUTES = \x7b HOME: \x27/\x27, ORDER: \x27/order\x27 \x7d"),
   ("generated_project/src/router/index.tsx",
     FileData.text "import \x7b OrderView \x7d from \x27../views\x27\n<Route path=\x27/order\x27 element=\x7b<OrderView /> \x7d />")]

/-- C8: the Finding text the rule emits in the `fsC8` scenario. -/
def c8msg : String :=
  "Route-View Matching: View " ++ quoted "OrderView" ++ " missing route constant in routes.ts"

/-- C10: `n.ts` holds a namespace import of `./m`; `m.ts` exports only
`X`. -/
def fsC10 : FS :=
  [("generated_project/src/n.ts", FileData.text "import * as N from \x27./m\x27"),
   ("generated_project/src/m.ts", FileData.text "export const X = 1")]

end Stage5

namespace Stage5

/-! ## Helper lemmas -/

theorem commitResult_errors (s : VState) (name : String) (fe : List String) :
    ∃ t, (commitResult s name fe).errors = s.errors ++ t := by
  unfold commitResult
  split
  · exact ⟨[], by simp⟩
  · exact ⟨_, rfl⟩

theorem missingFile_errors (s : VState) (name msg : String) :
    ∃ t, (missingFile s name msg).errors = s.errors ++ t :=
  ⟨_, rfl⟩

theorem commitResult_results_len (s : VState) (name : String) (fe : List String) :
    (commitResult s name fe).results.length = s.results.length + 1 := by
  unfold commitResult
  split <;> simp

theorem missingFile_results_len (s : VState) (name msg : String) :
    (missingFile s name msg).results.length = s.results.length + 1 := by
  unfold missingFile
  simp

set_option linter.unusedTactic false

/-- Every rule extends the error list (it never rewrites or drops
already-recorded findings). -/
theorem rules_extend_errors : ∀ r ∈ rulesInOrder, ∀ (fs : FS) (s : VState),
    ∃ t, (r fs s).errors = s.errors ++ t := by
  intro r hr fs s
  simp only [rulesInOrder, List.mem_cons, List.not_mem_nil, or_false] at hr
  rcases hr with rfl | rfl | rfl | rfl | rfl | rfl | rfl | rfl | rfl | rfl | rfl | rfl | rfl | rfl <;>
    simp only [validate_app_component, validate_main_entry, validate_app_css,
      validate_index_css, validate_auth_context, validate_context_barrel_exports,
      validate_html_template, validate_html_location, validate_package_json,
      validate_no_previous_modifications, validate_route_view_matching,
      validate_storage_exports, validate_component_barrel_exports, validate_imports] <;>
    repeat' (first
      | exact commitResult_errors _ _ _
      | exact missingFile_errors _ _ _
      | split
      | (refine ⟨[], ?_⟩; simp; done))

/-- Every rule records exactly one named outcome. -/
theorem rules_add_one_result : ∀ r ∈ rulesInOrder, ∀ (fs : FS) (s : VState),
    (r fs s).results.length = s.results.length + 1 := by
  intro r hr fs s
  simp only [rulesInOrder, List.mem_cons, List.not_mem_nil, or_false] at hr
  rcases hr with rfl | rfl | rfl | rfl | rfl | rfl | rfl | rfl | rfl | rfl | rfl | rfl | rfl | rfl <;>
    simp only [validate_app_component, validate_main_entry, validate_app_css,
      validate_index_css, validate_auth_context, validate_context_barrel_exports,
      validate_html_template, validate_html_location, validate_package_json,
      validate_no_previous_modifications, validate_route_view_matching,
      validate_storage_exports, validate_component_barrel_exports, validate_imports] <;>
    repeat' (first
      | exact commitResult_results_len _ _ _
      | exact missingFile_results_len _ _ _
      | split
      | (simp; done))

set_option linter.unusedTactic true

theorem foldl_rules_results_length (fs : FS) :
    ∀ (l : List (FS → VState → VState)),
      (∀ r ∈ l, ∀ s2 : VState, (r fs s2).results.length = s2.results.length + 1) →
      ∀ s : VState, (l.foldl (fun st r => r fs st) s).results.length = s.results.length + l.length := by
  intro l
  induction l with
  | nil =>
    intro _ s
    simp
  | cons r t ih =>
    intro h s
    simp only [List.foldl_cons, List.length_cons]
    rw [ih (fun r2 hr s2 => h r2 (List.mem_cons_of_mem _ hr) s2) (r fs s),
      h r (List.mem_cons_self _ _) s]
    omega

theorem foldl_rules_errors_extend (fs : FS) :
    ∀ (l : List (FS → VState → VState)),
      (∀ r ∈ l, ∀ s2 : VState, ∃ t, (r fs s2).errors = s2.errors ++ t) →
      ∀ s : VState, ∃ t, (l.foldl (fun st r => r fs st) s).errors = s.errors ++ t := by
  intro l
  induction l with
  | nil =>
    intro _ s
    exact ⟨[], by simp⟩
  | cons r t ih =>
    intro h s
    simp only [List.foldl_cons]
    obtain ⟨t1, h1⟩ := h r (List.mem_cons_self _ _) s
    obtain ⟨t2, h2⟩ := ih (fun r2 hr s2 => h r2 (List.mem_cons_of_mem _ hr) s2) (r fs s)
    exact ⟨t1 ++ t2, by rw [h2, h1, List.append_assoc]⟩

/-- The full run records exactly fourteen rule outcomes, whatever the
filesystem contains. -/
theorem runAllRules_results_length (fs : FS) (s : VState) :
    (runAllRules fs s).results.length = s.results.length + 14 := by
  unfold runAllRules
  rw [foldl_rules_results_length fs rulesInOrder (fun r hr s2 => rules_add_one_result r hr fs s2) s]
  rfl

/-- The findings of the first rule survive into the final error list. -/
theorem runAllRules_errors_extend_first (fs : FS) (s : VState) :
    ∃ t, (runAllRules fs s).errors = (validate_app_component fs s).errors ++ t :=
  foldl_rules_errors_extend fs rulesInOrder.tail
    (fun r hr s2 => rules_extend_errors r (List.mem_of_mem_tail hr) fs s2)
    (validate_app_component fs s)

/-- When no filesystem entry lies under the artifact root, no path below
the root exists. -/
theorem noRoot_not_exists (fs : FS) (hroot : ∀ ent ∈ fs, strStarts ent.1 basePath = false)
    (p : String) (hp : strStarts p basePath = true) : fsPathExists fs p = false := by
  have hkey : fsKey p = p := by
    unfold fsKey
    rw [if_neg]
    intro hcwd
    have h1 : basePath.toList <+: p.toList := by
      simpa [strStarts, List.isPrefixOf_iff_prefix] using hp
    have h2 : cwdMark.toList <+: p.toList := by
      simpa [strStarts, List.isPrefixOf_iff_prefix] using hcwd
    obtain ⟨t1, e1⟩ := h1
    obtain ⟨t2, e2⟩ := h2
    rw [← e1] at e2
    simp [basePath, cwdMark] at e2
  unfold fsPathExists fsLookup fsIsDir
  have hfind : fs.find? (fun e => e.1 = fsKey p) = none := by
    apply List.find?_eq_none.mpr
    intro x hx
    rw [hkey]
    simp only [decide_eq_true_eq]
    intro hxp
    have hfalse := hroot x hx
    rw [hxp, hp] at hfalse
    cases hfalse
  have hdir : fs.any (fun e => (fsKey p ++ "/").toList.isPrefixOf e.1.toList) = false := by
    rw [List.any_eq_false]
    intro x hx
    rw [hkey]
    intro hpre
    have hb : basePath.toList <+: p.toList := by
      simpa [strStarts, List.isPrefixOf_iff_prefix] using hp
    have h2 : (p ++ "/").toList <+: x.1.toList := List.isPrefixOf_iff_prefix.mp hpre
    have h3 : p.toList <+: (p ++ "/").toList := by
      rw [show (p ++ "/").toList = p.toList ++ "/".toList from String.data_append p "/"]
      exact List.prefix_append _ _
    have hall : basePath.toList <+: x.1.toList := hb.trans (h3.trans h2)
    have hfalse := hroot x hx
    rw [show strStarts x.1 basePath = true by
      simpa [strStarts, List.isPrefixOf_iff_prefix] using hall] at hfalse
    cases hfalse
  rw [hfind, hdir]
  rfl

/-- A path that does not exist cannot be read. -/
theorem fsRead_none_of_not_exists (fs : FS) (p : String) (h : fsPathExists fs p = false) :
    fsRead fs p = none := by
  unfold fsPathExists at h
  unfold fsRead
  rcases hb : fsLookup fs p with _ | d
  · rfl
  · simp [hb] at h

/-- `load_inputs` fails whenever the API document cannot be read. -/
theorem load_inputs_none_of_api_none (fs : FS) (e o : String) (h : fsRead fs o = none) :
    load_inputs fs e o = none := by
  unfold load_inputs
  repeat' split <;> simp_all

theorem wsChar_word_false (c : Char) (h : wsChar c = true) : wordChar c = false := by
  simp only [wsChar, Bool.or_eq_true, decide_eq_true_eq] at h
  rcases h with ((((h | h) | h) | h) | h) | h <;> subst h <;> decide

theorem word_not_ws (c : Char) (h : wordChar c = true) : wsChar c = false := by
  by_cases hw : wsChar c = true
  · rw [wsChar_word_false c hw] at h
    cases h
  · simpa using hw

/-- `str.strip()` is the identity when both ends are word characters. -/
theorem pyStrip_word_ends (cs : List Char)
    (h1 : ∃ c t, cs = c :: t ∧ wordChar c = true)
    (h2 : ∃ c t, cs = t ++ [c] ∧ wordChar c = true) : pyStrip cs = cs := by
  unfold pyStrip
  obtain ⟨c2, t2, heq2, hc2⟩ := h2
  obtain ⟨c, t, rfl, hc⟩ := h1
  rw [List.dropWhile_cons, word_not_ws c hc]
  simp only [Bool.false_eq_true, if_false]
  rw [heq2, List.reverse_append]
  simp only [List.reverse_cons, List.reverse_nil, List.nil_append, List.singleton_append]
  rw [List.dropWhile_cons, word_not_ws c2 hc2]
  simp [← heq2]

/-- The first occurrence of `" as "` after a word-character identifier is
exactly at the identifier's end. -/
theorem findSub_sep_append (l r : List Char) (hl : ∀ c ∈ l, wordChar c = true) :
    findSub (" as ".toList) (l ++ " as ".toList ++ r) = some l.length := by
  induction l with
  | nil =>
    have hpre : (" as ".toList).isPrefixOf (" as ".toList ++ r) = true :=
      List.isPrefixOf_iff_prefix.mpr (List.prefix_append _ _)
    simp only [List.nil_append, List.length_nil]
    rw [show " as ".toList ++ r = ' ' :: ("as ".toList ++ r) from rfl] at hpre ⊢
    simp [findSub, hpre]
  | cons c t ih =>
    have hc : wordChar c = true := hl c (by simp)
    have hne : (' ' == c) = false := by
      by_cases h : c = ' '
      · subst h
        exact absurd hc (by decide)
      · exact beq_eq_false_iff_ne.mpr (Ne.symm h)
    have hpre : (" as ".toList).isPrefixOf (c :: (t ++ " as ".toList ++ r)) = false := by
      rw [show " as ".toList = ' ' :: "as ".toList from rfl, List.isPrefixOf_cons₂, hne]
      simp
    have ih2 := ih (fun x hx => hl x (List.mem_cons_of_mem c hx))
    rw [show ((c :: t) ++ " as ".toList ++ r) = c :: (t ++ " as ".toList ++ r) by simp]
    simp only [findSub, hpre]
    simpa using ih2

/-- `split(' as ')` of `identifier as alias` puts the identifier first. -/
theorem pySplit_sep_head (l r : List Char) (hl : ∀ c ∈ l, wordChar c = true) :
    (pySplit (" as ".toList) (l ++ " as ".toList ++ r)).headD [] = l := by
  unfold pySplit
  simp only [pySplitF, findSub_sep_append l r hl]
  rw [List.append_assoc, List.take_append_of_le_length (Nat.le_refl _)]
  simp

end Stage5

namespace Stage5

/-! ## Claim theorems -/

/-- C1 (counterexample): in a tree where `a.ts` requests `Foo` from
`./b`, the specifier resolves and `b.ts` was scanned with export set
`{Bar}`; the claim demands one resolution Finding naming `Foo` and
`./b`, but the run emits no Finding at all — `_resolve_import_path`
returns an absolute path while `file_exports` is keyed by the relative
walk paths, so the symbol check is skipped.  Moreover even the written
per-symbol check accepts any name once `default` is exported, which the
claimed acceptance condition (`specImportAccepts`) refuses. -/
theorem C1_counterexample :
    resolveImportPath fsC1 "generated_project/src/a.ts" "./b" =
      some "/cwd/generated_project/src/b.ts" ∧
    scanFileExports fsC1 "generated_project/src/b.ts" = ["Bar"] ∧
    scanFileImports fsC1 "generated_project/src/a.ts" = [(["Foo"], "./b")] ∧
    specImportAccepts "Foo" ["Bar"] = false ∧
    (validate_imports fsC1 (initState false)).errors = [] ∧
    symbolErrors "src/a.ts" "./b" ["Foo"] ["Foo"] = [] ∧
    symbolErrors "src/a.ts" "./b" ["Foo"] ["default"] = [] ∧
    specImportAccepts "Foo" ["default"] = false := by
  decide

/-- C1 (amended): the run emits no symbol Finding for resolved
references (the export-table lookup misses, see the counterexample); the
per-symbol check as written accepts a requested name iff the name is in
the target's export set, or the export set contains `default`
(regardless of the requested name), or contains `*`; each rejected name
yields one Finding naming the symbol and the specifier. -/
theorem C1_symbol_rule (relPath fromPath : String) (symbols exports : List String) :
    (symbolErrors relPath fromPath symbols exports = [] ↔
      ∀ s ∈ symbols, s ∈ exports ∨ "default" ∈ exports ∨ "*" ∈ exports) ∧
    (∀ s ∈ symbols, s ∉ exports → "default" ∉ exports → "*" ∉ exports →
      (relPath ++ ": Symbol " ++ quoted s ++ " not exported from " ++ quoted fromPath) ∈
        symbolErrors relPath fromPath symbols exports) := by
  unfold symbolErrors
  by_cases hstar : exports.contains "*" = true
  · rw [if_pos hstar]
    have hstarm : "*" ∈ exports := by simpa using hstar
    refine ⟨⟨fun _ s _ => Or.inr (Or.inr hstarm), fun _ => rfl⟩, ?_⟩
    intro s _ _ _ hst
    exact absurd hstarm hst
  · rw [if_neg hstar]
    have hstar2 : "*" ∉ exports := by simpa using hstar
    constructor
    · rw [List.filterMap_eq_nil_iff]
      constructor
      · intro hall s hs
        have hth := hall s hs
        by_cases hmem : exports.contains s = true
        · exact Or.inl (by simpa using hmem)
        · by_cases hdef : exports.contains "default" = true
          · exact Or.inr (Or.inl (by simpa using hdef))
          · have hm : s ∉ exports := by simpa using hmem
            have hd : "default" ∉ exports := by simpa using hdef
            rw [if_pos (by simp [hm, hd])] at hth
            cases hth
      · intro hall s hs
        rcases hall s hs with h | h | h
        · simp [h]
        · simp [h]
        · exact absurd h hstar2
    · intro s hs h1 h2 _
      rw [List.mem_filterMap]
      refine ⟨s, hs, ?_⟩
      rw [if_pos (by simp [h1, h2])]

/-- C1 (witness): the amended per-symbol check at a concrete point. -/
theorem C1_symbol_rule_witness :
    ("Foo" ∉ (["Bar"] : List String)) ∧
    ("src/a.ts: Symbol " ++ quoted "Foo" ++ " not exported from " ++ quoted "./b") ∈
      symbolErrors "src/a.ts" "./b" ["Foo"] ["Bar"] :=
  ⟨by decide,
    (C1_symbol_rule "src/a.ts" "./b" ["Foo"] ["Bar"]).2 "Foo" (by decide)
      (by decide) (by decide) (by decide)⟩

/-- C2: for every run that reaches rule evaluation (both schema paths
exist and `load_inputs` succeeded), the Boolean verdict of `validate` is
true exactly when the accumulated error list is empty — it is a function
of the error list alone, so the number of warnings never changes it —
and the process exit status is `0` when the error list is empty and `1`
otherwise. -/
theorem C2_verdict_iff_no_errors (fs : FS) (erdPath openapiPath : String) (flag : Bool)
    (he : fsPathExists fs erdPath = true) (ho : fsPathExists fs openapiPath = true)
    (hl : load_inputs fs erdPath openapiPath = some flag) :
    ((validate fs erdPath openapiPath).success = true ↔
      (runAllRules fs (initState flag)).errors = []) ∧
    (mainRun fs erdPath openapiPath).exitCode =
      (if (runAllRules fs (initState flag)).errors = [] then 0 else 1) := by
  unfold validate mainRun
  rw [hl]
  simp only [he, ho, if_true]
  constructor
  · simp [List.isEmpty_iff]
  · unfold validate
    rw [hl]
    rcases hc : (runAllRules fs (initState flag)).errors with _ | ⟨a, t⟩ <;> simp [hc]

/-- C2 (witness): a concrete run with both schemas parsable. -/
theorem C2_verdict_witness :
    fsPathExists fsSchemas "erd.json" = true ∧
    fsPathExists fsSchemas "openapi.json" = true ∧
    load_inputs fsSchemas "erd.json" "openapi.json" = some false ∧
    (((validate fsSchemas "erd.json" "openapi.json").success = true ↔
      (runAllRules fsSchemas (initState false)).errors = []) ∧
    (mainRun fsSchemas "erd.json" "openapi.json").exitCode =
      (if (runAllRules fsSchemas (initState false)).errors = [] then 0 else 1)) :=
  ⟨by decide, by decide, by decide,
    C2_verdict_iff_no_errors fsSchemas "erd.json" "openapi.json" false
      (by decide) (by decide) (by decide)⟩

/-- C3 (counterexample): importing `./foo.svg` where the exact target
file exists, the code resolver reports unresolved (it never probes the
exact path), while the spec-side resolver that probes the exact path
first succeeds. -/
theorem C3_counterexample :
    resolveImportPath fsC3 "generated_project/src/a.ts" "./foo.svg" = none ∧
    specResolveOrder fsC3 "generated_project/src/a.ts" "./foo.svg" =
      some "/cwd/generated_project/src/foo.svg" ∧
    fsPathExists fsC3 "/cwd/generated_project/src/foo.svg" = true := by
  decide

/-- C3 (amended): for every relative specifier the resolver returns the
first existing candidate of the fixed probe list — the resolved path
extended by `.ts`, `.tsx`, `.js`, `.jsx`, `.css`, then the directory
index files `index.ts` and `index.tsx`; the exact path as given is never
probed, and when no candidate exists the outcome is unresolved
(`none`). -/
theorem C3_probe_order (fs : FS) (importingFile importPath : String)
    (h : strStarts importPath "." = true) :
    resolveImportPath fs importingFile importPath =
      (resolveCandidates importingFile importPath).find? (fun c => fsPathExists fs c) := by
  simp only [resolveImportPath, resolveCandidates, h, if_true, List.find?]
  repeat' split <;> simp_all

/-- C3 (witness): the probe-order characterisation at a concrete point. -/
theorem C3_probe_order_witness :
    strStarts "./foo.svg" "." = true ∧
    resolveImportPath fsC3 "generated_project/src/a.ts" "./foo.svg" =
      (resolveCandidates "generated_project/src/a.ts" "./foo.svg").find?
        (fun c => fsPathExists fsC3 c) :=
  ⟨by decide, C3_probe_order fsC3 "generated_project/src/a.ts" "./foo.svg" (by decide)⟩

end Stage5

namespace Stage5

/-- C4 (counterexample): with authentication enabled and the
auth-context file absent, the rule emits exactly one Finding (the
missing file), not one Finding per missing required marker — there are
seven required markers. -/
theorem C4_counterexample :
    (validate_auth_context [] (initState true)).errors =
      ["Auth Context: File not found - src/context/AuthContext.tsx (auth is enabled)"] ∧
    authMarkerChecks.length = 7 := by
  decide

/-- C4 (amended): with authentication disabled the rule records a
passing outcome and no Finding even when the file is absent; with
authentication enabled and the file absent it emits exactly one Finding
reporting the missing file; the per-marker Findings (one per missing
required marker) arise when the file exists — on empty content, all
seven marker Findings are emitted. -/
theorem C4_presence_behaviour
    (fs1 : FS) (s1 : VState) (h1 : s1.authEnabled = false)
    (fs2 : FS) (s2 : VState) (h2 : s2.authEnabled = true)
    (h3 : fsPathExists fs2 (basePath ++ "/src/context/AuthContext.tsx") = false) :
    validate_auth_context fs1 s1 =
      { s1 with results := s1.results ++ [("Auth Context", true)] } ∧
    validate_auth_context fs2 s2 =
      { s2 with
        errors := s2.errors ++
          ["Auth Context: File not found - src/context/AuthContext.tsx (auth is enabled)"]
        results := s2.results ++ [("Auth Context", false)] } ∧
    (validate_auth_context fsC4present (initState true)).errors =
      authMarkerChecks.map (fun chk => "Auth Context: " ++ chk.2) := by
  refine ⟨?_, ?_, by decide⟩
  · simp [validate_auth_context, h1]
  · simp [validate_auth_context, h2, h3, missingFile]

/-- C4 (witness): the presence behaviour at concrete points. -/
theorem C4_presence_witness :
    (initState false).authEnabled = false ∧
    (initState true).authEnabled = true ∧
    fsPathExists [] (basePath ++ "/src/context/AuthContext.tsx") = false ∧
    (validate_auth_context [] (initState false) =
      { initState false with results := [("Auth Context", true)] } ∧
    validate_auth_context [] (initState true) =
      { initState true with
        errors :=
          ["Auth Context: File not found - src/context/AuthContext.tsx (auth is enabled)"]
        results := [("Auth Context", false)] } ∧
    (validate_auth_context fsC4present (initState true)).errors =
      authMarkerChecks.map (fun chk => "Auth Context: " ++ chk.2)) :=
  ⟨by decide, by decide, by decide, by
    have h := C4_presence_behaviour [] (initState false) (by decide)
      [] (initState true) (by decide) (by decide)
    simpa [initState] using h⟩

/-- C5 (counterexample): scanning `export { foo as bar }` records the
local name `foo`, not the externally visible name `bar` that the claim
requires. -/
theorem C5_counterexample :
    scanExportsContent c5content = ["foo"] ∧
    "bar" ∉ scanExportsContent c5content := by
  decide

/-- C5 (amended): for every export-list item `local as exported` built
from word-character identifiers, the extractor's item resolver records
the *local* name (the part before `as`), not the re-exported name. -/
theorem C5_alias_records_local_name (l r : List Char) (hl0 : l ≠ []) (hr0 : r ≠ [])
    (hl : ∀ c ∈ l, wordChar c = true) (hr : ∀ c ∈ r, wordChar c = true) :
    itemLocalName (l ++ " as ".toList ++ r) = String.mk l := by
  have hlBoth1 : ∃ c t, l = c :: t ∧ wordChar c = true := by
    obtain ⟨c, t, rfl⟩ := List.exists_cons_of_ne_nil hl0
    exact ⟨c, t, rfl, hl c (by simp)⟩
  have hlBoth2 : ∃ c t, l = t ++ [c] ∧ wordChar c = true := by
    rcases l.eq_nil_or_concat with rfl | ⟨t, c, rfl⟩
    · exact absurd rfl hl0
    · exact ⟨c, t, by simp [List.concat_eq_append], hl c (by simp [List.concat_eq_append])⟩
  have hstrip1 : pyStrip (l ++ " as ".toList ++ r) = l ++ " as ".toList ++ r := by
    apply pyStrip_word_ends
    · obtain ⟨c, t, rfl, hc⟩ := hlBoth1
      exact ⟨c, t ++ " as ".toList ++ r, by simp, hc⟩
    · rcases r.eq_nil_or_concat with rfl | ⟨t, c, rfl⟩
      · exact absurd rfl hr0
      · exact ⟨c, l ++ " as ".toList ++ t,
          by simp [List.concat_eq_append], hr c (by simp [List.concat_eq_append])⟩
  unfold itemLocalName
  rw [hstrip1, pySplit_sep_head l r hl, pyStrip_word_ends l hlBoth1 hlBoth2]

/-- C5 (witness): the alias resolver at a concrete aliased item. -/
theorem C5_alias_witness :
    ("foo".toList ≠ ([] : List Char) ∧ "bar".toList ≠ ([] : List Char)) ∧
    itemLocalName ("foo".toList ++ " as ".toList ++ "bar".toList) = String.mk "foo".toList :=
  ⟨⟨by decide, by decide⟩,
    C5_alias_records_local_name "foo".toList "bar".toList (by decide) (by decide)
      (by decide) (by decide)⟩

/-- C6 (counterexample): `Bad.ts` exists but raises on read during
the import rule's export scan; the rule records no Finding at all — nothing
identifies the offending file — and reports a passing outcome. -/
theorem C6_counterexample :
    fsPathExists fsC6 "generated_project/src/Bad.ts" = true ∧
    fsRead fsC6 "generated_project/src/Bad.ts" = none ∧
    (validate_imports fsC6 (initState false)).errors = [] ∧
    (validate_imports fsC6 (initState false)).results = [("Import Validation", true)] := by
  decide

/-- C6 (amended): per-file errors are caught and evaluation continues —
an unreadable file never suppresses other files' Findings — and the
single-file validators do record an `Error reading file` Finding, but
the export/import scanners swallow the error silently, contributing an
empty result set and no Finding. -/
theorem C6_error_isolation :
    scanFileExports fsC6 "generated_project/src/Bad.ts" = [] ∧
    scanFileImports fsC6 "generated_project/src/Bad.ts" = [] ∧
    (validate_imports fsC6b (initState false)).errors =
      ["Import Validation: src/Good.ts: Import path not found " ++ quoted "./missing"] ∧
    (validate_app_component fsC6c (initState false)).errors =
      ["App Component: Error reading file: boom"] := by
  decide

/-- C7 (counterexample): with both schema documents present and the
artifact-tree root entirely absent, the run does not abort: it produces
a full report with all fourteen rule outcomes (so a report *is*
produced, contradicting the claimed fatal abort) and exits 1 through the
ordinary per-file Findings. -/
theorem C7_counterexample :
    fsPathExists fsNoRoot basePath = false ∧
    (mainRun fsNoRoot "erd.json" "openapi.json").report ≠ none ∧
    ((mainRun fsNoRoot "erd.json" "openapi.json").report.map
      (fun r => r.passed.length + r.failed.length)) = some 14 ∧
    "App Component: File not found - src/App.tsx" ∈
      (runAllRules fsNoRoot (initState false)).errors ∧
    (mainRun fsNoRoot "erd.json" "openapi.json").exitCode = 1 := by
  decide

/-- C7 (amended): a missing artifact-tree root is not fatal — for every
run whose schema documents load, even with no entry under the root, all
fourteen rules still run, the report is produced, the first presence
rule's file-not-found Finding is in the error list, and the exit status
is 1. -/
theorem C7_no_root_still_reports (fs : FS) (erdPath openapiPath : String) (flag : Bool)
    (hroot : ∀ ent ∈ fs, strStarts ent.1 basePath = false)
    (he : fsPathExists fs erdPath = true) (ho : fsPathExists fs openapiPath = true)
    (hl : load_inputs fs erdPath openapiPath = some flag) :
    (mainRun fs erdPath openapiPath).report =
      some (mkReport fs (runAllRules fs (initState flag))) ∧
    (runAllRules fs (initState flag)).results.length = 14 ∧
    "App Component: File not found - src/App.tsx" ∈ (runAllRules fs (initState flag)).errors ∧
    (mainRun fs erdPath openapiPath).exitCode = 1 := by
  have happ : fsPathExists fs (basePath ++ "/src/App.tsx") = false :=
    noRoot_not_exists fs hroot _ (by decide)
  have hfirst : (validate_app_component fs (initState flag)).errors =
      ["App Component: File not found - src/App.tsx"] := by
    simp [validate_app_component, happ, missingFile, initState]
  have hmem : "App Component: File not found - src/App.tsx" ∈
      (runAllRules fs (initState flag)).errors := by
    obtain ⟨t, ht⟩ := runAllRules_errors_extend_first fs (initState flag)
    rw [ht, hfirst]
    simp
  have hne : (runAllRules fs (initState flag)).errors ≠ [] := by
    intro h0
    rw [h0] at hmem
    cases hmem
  refine ⟨?_, ?_, hmem, ?_⟩
  · unfold mainRun
    simp only [he, ho, if_true]
    unfold validate
    rw [hl]
  · rw [runAllRules_results_length]
    simp [initState]
  · unfold mainRun
    simp only [he, ho, if_true]
    unfold validate
    rw [hl]
    simp only []
    rw [if_neg]
    intro hsucc
    rw [List.isEmpty_iff] at hsucc
    exact hne hsucc

/-- C7 (witness): the no-root behaviour at a concrete filesystem. -/
theorem C7_no_root_witness :
    (∀ ent ∈ fsNoRoot, strStarts ent.1 basePath = false) ∧
    load_inputs fsNoRoot "erd.json" "openapi.json" = some false ∧
    ((mainRun fsNoRoot "erd.json" "openapi.json").report =
      some (mkReport fsNoRoot (runAllRules fsNoRoot (initState false))) ∧
    (runAllRules fsNoRoot (initState false)).results.length = 14 ∧
    "App Component: File not found - src/App.tsx" ∈
      (runAllRules fsNoRoot (initState false)).errors ∧
    (mainRun fsNoRoot "erd.json" "openapi.json").exitCode = 1) :=
  ⟨by decide, by decide,
    C7_no_root_still_reports fsNoRoot "erd.json" "openapi.json" false
      (by decide) (by decide) (by decide) (by decide)⟩

end Stage5

namespace Stage5

/-- C8 (counterexample): `OrderView` with no `ORDER` constant but
otherwise wired yields exactly one Finding, and that Finding references
`OrderView` but does not contain the derived constant `ORDER` — the
claim's "referencing OrderView and ORDER" fails on the message text. -/
theorem C8_counterexample :
    (validate_route_view_matching fsC8 (initState false)).errors = [c8msg] ∧
    strHasSub c8msg "ORDER" = false := by
  decide

/-- C8 (amended): the wiring rule requires, for each view `<Entity>View`
other than `Home`/`NotFound`, the upper-cased route constant in
`routes.ts` and the import and rendered `Route` in `router/index.tsx`;
with only the constant missing it emits exactly one naming Finding
referencing `OrderView` (the message does not name `ORDER`), adding the
constant clears the Finding, and whenever the constant pattern is absent
from the route table the per-view check emits the missing-constant
Finding. -/
theorem C8_wiring_amended :
    ((validate_route_view_matching fsC8 (initState false)).errors = [c8msg] ∧
     strHasSub c8msg "OrderView" = true ∧
     (validate_route_view_matching fsC8fixed (initState false)).errors = []) ∧
    (∀ routesContent routerContent : String,
      searchIn (reRouteConst "ORDER") routesContent = false →
      ("View " ++ quoted "OrderView" ++ " missing route constant in routes.ts") ∈
        checkView routesContent routerContent "OrderView") := by
  refine ⟨by decide, ?_⟩
  intro rc xc h
  simp only [checkView]
  rw [show pyUpper (String.mk (pyReplace "OrderView".toList "View".toList "".toList)) =
    "ORDER" from by decide]
  simp [h]

/-- C8 (witness): the per-view requirement at a concrete point. -/
theorem C8_wiring_witness :
    searchIn (reRouteConst "ORDER") "" = false ∧
    ("View " ++ quoted "OrderView" ++ " missing route constant in routes.ts") ∈
      checkView "" "" "OrderView" :=
  ⟨by decide, C8_wiring_amended.2 "" "" (by decide)⟩

/-- C9: whenever either schema document is missing or unparsable, the
run exits with status 1 before any rule runs: no report is rendered and
the validator state carries no rule outcome. -/
theorem C9_fatal_input (fs : FS) (erdPath openapiPath : String)
    (h : fsPathExists fs erdPath = false ∨ fsPathExists fs openapiPath = false ∨
      load_inputs fs erdPath openapiPath = none) :
    mainRun fs erdPath openapiPath = ⟨1, none⟩ ∧
    (validate fs erdPath openapiPath).report = none ∧
    (validate fs erdPath openapiPath).state.results = [] := by
  have hload : load_inputs fs erdPath openapiPath = none := by
    rcases h with h | h | h
    · have hr := fsRead_none_of_not_exists fs erdPath h
      unfold load_inputs
      rw [hr]
    · exact load_inputs_none_of_api_none fs erdPath openapiPath
        (fsRead_none_of_not_exists fs openapiPath h)
    · exact h
  have hv : validate fs erdPath openapiPath = ⟨false, none, loadFailState⟩ := by
    unfold validate
    rw [hload]
  refine ⟨?_, by rw [hv], by rw [hv]; rfl⟩
  unfold mainRun
  cases he : fsPathExists fs erdPath
  · rfl
  · cases ho : fsPathExists fs openapiPath
    · rfl
    · rw [hv]
      rfl

/-- C9 (witness): a run whose entity/relationship document is missing. -/
theorem C9_fatal_input_witness :
    fsPathExists ([] : FS) "erd.json" = false ∧
    (mainRun ([] : FS) "erd.json" "openapi.json" = ⟨1, none⟩ ∧
    (validate ([] : FS) "erd.json" "openapi.json").report = none ∧
    (validate ([] : FS) "erd.json" "openapi.json").state.results = []) :=
  ⟨by decide,
    C9_fatal_input ([] : FS) "erd.json" "openapi.json" (Or.inl (by decide))⟩

/-- C10: the scanner does treat `import * as N from './m'` as the
ordinary requested symbol list `[N]`, and the written per-symbol check
would reject `N` against `m.ts`'s export set `{X}`; but the run emits no
Finding — the resolved absolute path never matches the relative-keyed
export table, so the check never fires. -/
theorem C10_namespace_alias_dead :
    scanFileImports fsC10 "generated_project/src/n.ts" = [(["N"], "./m")] ∧
    scanFileExports fsC10 "generated_project/src/m.ts" = ["X"] ∧
    resolveImportPath fsC10 "generated_project/src/n.ts" "./m" =
      some "/cwd/generated_project/src/m.ts" ∧
    symbolErrors "src/n.ts" "./m" ["N"] ["X"] =
      ["src/n.ts: Symbol " ++ quoted "N" ++ " not exported from " ++ quoted "./m"] ∧
    (validate_imports fsC10 (initState false)).errors = [] ∧
    (validate_imports fsC10 (initState false)).results = [("Import Validation", true)] := by
  decide

end Stage5
